import Mathlib

/-!
Verification of the album-store event/aggregation layer.

Shallow embedding of the review-aggregate repositories (DynamoDB and MySQL
backends), the SNS event publisher, the SQS consumer, the command-side album
service and the review message processor, together with theorems settling the
stated properties of each component.
-/

namespace AlbumStore

/-! ## DynamoDB review repository
    (internal/repository/dynamodb/review_repository.go)

The table item is the marshalled `DynamoDBReview`: partition key `album_id`,
numeric attributes `like_count` and `dislike_count`.  Counters are modelled as
`Nat` (the domain model `domain.Review` stores them as `uint`, and the code
only ever increments them). -/

structure DynReview where
  album_id : String
  like_count : Nat
  dislike_count : Nat
deriving DecidableEq

/-- The DynamoDB table: a partial map from `album_id` to the stored item. -/
abbrev DynTable := String → Option DynReview

/-- The empty DynamoDB table. -/
def dynEmpty : DynTable := fun _ => none

/-- One request issued by the repository to the DynamoDB endpoint; each
constructor is one client round trip. -/
inductive DynRequest where
  /-- `GetItem` keyed by `album_id`. -/
  | getItem (albumID : String)
  /-- `PutItem` of a marshalled `DynamoDBReview`. -/
  | putItem (item : DynReview)
  /-- `UpdateItem` with expression
      `SET <counter> = if_not_exists(<counter>, :zero) + :incr`,
      `:incr = 1`, `:zero = 0`, keyed by `album_id`. -/
  | updateAddCount (albumID : String) (counterName : String)
  /-- `DeleteItem` keyed by `album_id` with condition
      `attribute_exists(album_id)`. -/
  | deleteIfExists (albumID : String)
deriving DecidableEq

/-- Effect of the update expression
`SET c = if_not_exists(c, 0) + 1` on an existing item.  The repository only
ever passes `"like_count"` or `"dislike_count"` as the counter name; both
attributes are always present on a marshalled item, so `if_not_exists`
resolves to the stored value. -/
def applyAddCount (counterName : String) (r : DynReview) : DynReview :=
  if counterName == "like_count" then { r with like_count := r.like_count + 1 }
  else if counterName == "dislike_count" then
    { r with dislike_count := r.dislike_count + 1 }
  else r

/-- DynamoDB server semantics of one request: the table after the request and
whether the request succeeded (`false` = `ConditionalCheckFailedException`).
`UpdateItem` is an upsert: on a missing key it creates the item, a missing
counter attribute defaulting to 0 via `if_not_exists` (a missing attribute
unmarshals to 0 on the Go side, so the absent-attribute item is modelled with
the other counter at 0). -/
def dynApply (t : DynTable) : DynRequest → DynTable × Bool
  | .getItem _ => (t, true)
  | .putItem r => (fun k => if k == r.album_id then some r else t k, true)
  | .updateAddCount a c =>
      let base := (t a).getD { album_id := a, like_count := 0, dislike_count := 0 }
      (fun k => if k == a then some (applyAddCount c base) else t k, true)
  | .deleteIfExists a =>
      match t a with
      | some _ => (fun k => if k == a then none else t k, true)
      | none => (t, false)

/-- `GetByAlbumID` (review_repository.go): a `GetItem` round trip; `none`
models the Go `nil, nil` result for a missing item. -/
def dynGetByAlbumID (t : DynTable) (albumID : String) : Option DynReview :=
  t albumID

/-- The review freshly constructed by `addCount` when `GetByAlbumID` found
nothing: `domain.Review{AlbumID: albumID}` with the matching counter then set
to 1 (`if counterName == "like_count"` … `else if counterName ==
"dislike_count"` …). -/
def dynNewReview (albumID counterName : String) : DynReview :=
  let base : DynReview := { album_id := albumID, like_count := 0, dislike_count := 0 }
  if counterName == "like_count" then { base with like_count := 1 }
  else if counterName == "dislike_count" then { base with dislike_count := 1 }
  else base

/-- `addCount` (review_repository.go lines 96–137): first a `GetItem` round
trip (`r.GetByAlbumID`); if the item is absent, a `PutItem` round trip
(`r.createReview`) storing the new review; if present, an `UpdateItem` round
trip with the atomic counter expression.  Returns the issued request trace and
the resulting table. -/
def dynAddCount (t : DynTable) (albumID counterName : String) :
    List DynRequest × DynTable :=
  match dynGetByAlbumID t albumID with
  | none =>
      let req := DynRequest.putItem (dynNewReview albumID counterName)
      ([DynRequest.getItem albumID, req], (dynApply t req).1)
  | some _ =>
      let req := DynRequest.updateAddCount albumID counterName
      ([DynRequest.getItem albumID, req], (dynApply t req).1)

/-- `AddLike` (review_repository.go lines 140–143). -/
def dynAddLike (t : DynTable) (albumID : String) : List DynRequest × DynTable :=
  dynAddCount t albumID "like_count"

/-- `AddDislike` (review_repository.go lines 145–147). -/
def dynAddDislike (t : DynTable) (albumID : String) : List DynRequest × DynTable :=
  dynAddCount t albumID "dislike_count"

/-- `Delete` (review_repository.go lines 149–167): a single conditional
`DeleteItem`; a failed condition surfaces as an error
(`ConditionalCheckFailedException`). -/
def dynDelete (t : DynTable) (albumID : String) :
    List DynRequest × DynTable × Except String Unit :=
  let req := DynRequest.deleteIfExists albumID
  let res := dynApply t req
  ([req], res.1, if res.2 then Except.ok () else
    Except.error "ConditionalCheckFailedException")

/-- Externally observable counters of the DynamoDB backend for one album. -/
def dynCounts (t : DynTable) (albumID : String) : Option (Nat × Nat) :=
  (dynGetByAlbumID t albumID).map (fun r => (r.like_count, r.dislike_count))

/-! ## MySQL review repository (src/unnamed/part_020, package mysql)

A row of the `reviews` table.  The audit timestamps `created_at`/`updated_at`
are not modelled: no claim mentions them and they influence no observable
counter. -/

structure MySQLRow where
  review_id : String
  album_id : String
  like_count : Nat
  dislike_count : Nat
deriving DecidableEq

/-- The `reviews` table in insertion order. -/
abbrev MySQLTable := List MySQLRow

/-- `SELECT review_id FROM reviews WHERE album_id = ? FOR UPDATE` restricted
to one scanned row: the first matching row's `review_id`, if any. -/
def mysqlSelectReviewID (tbl : MySQLTable) (albumID : String) : Option String :=
  (tbl.find? (fun row => row.album_id == albumID)).map (fun row => row.review_id)

/-- `UPDATE reviews SET <col> = <col> + 1 WHERE review_id = ?` applied to one
row (the column name is interpolated by `fmt.Sprintf`; only the two counter
columns are ever passed). -/
def mysqlBump (columnName : String) (row : MySQLRow) : MySQLRow :=
  if columnName == "like_count" then { row with like_count := row.like_count + 1 }
  else if columnName == "dislike_count" then
    { row with dislike_count := row.dislike_count + 1 }
  else row

/-- `addCount` (part_020 lines 194–262): inside a transaction, a locking read
by album id; if no row exists, insert a fresh row (`uuid.New().String()`
passed here as `newReviewID`) with the matching counter seeded to 1
(`likeCount := 0; dislikeCount := 0;` then the `if columnName == …` ladder);
if a row exists, increment only the selected column of the row with the
selected `review_id`; commit. -/
def mysqlAddCount (tbl : MySQLTable) (albumID columnName newReviewID : String) :
    MySQLTable :=
  match mysqlSelectReviewID tbl albumID with
  | none =>
      let likeCount := if columnName == "like_count" then 1 else 0
      let dislikeCount := if columnName == "dislike_count" then 1 else 0
      tbl ++ [{ review_id := newReviewID, album_id := albumID,
                like_count := likeCount, dislike_count := dislikeCount }]
  | some reviewID =>
      tbl.map (fun row => if row.review_id == reviewID then
        mysqlBump columnName row else row)

/-- `GetByAlbumID` (part_020): `SELECT … FROM reviews WHERE album_id = ?`,
`nil, nil` on `sql.ErrNoRows`. -/
def mysqlGetByAlbumID (tbl : MySQLTable) (albumID : String) : Option MySQLRow :=
  tbl.find? (fun row => row.album_id == albumID)

/-- `Delete` (part_020 lines 274–293): `DELETE FROM reviews WHERE album_id
= ?`; when zero rows were affected, the error `review not found` is
returned. -/
def mysqlDelete (tbl : MySQLTable) (albumID : String) :
    MySQLTable × Except String Unit :=
  let remaining := tbl.filter (fun row => !(row.album_id == albumID))
  if tbl.length - remaining.length == 0 then
    (remaining, Except.error "review not found")
  else
    (remaining, Except.ok ())

/-- `AddLike` (mysql). -/
def mysqlAddLike (tbl : MySQLTable) (albumID newReviewID : String) : MySQLTable :=
  mysqlAddCount tbl albumID "like_count" newReviewID

/-- `AddDislike` (mysql). -/
def mysqlAddDislike (tbl : MySQLTable) (albumID newReviewID : String) : MySQLTable :=
  mysqlAddCount tbl albumID "dislike_count" newReviewID

/-- Externally observable counters of the MySQL backend for one album. -/
def mysqlCounts (tbl : MySQLTable) (albumID : String) : Option (Nat × Nat) :=
  (mysqlGetByAlbumID tbl albumID).map (fun row => (row.like_count, row.dislike_count))

/-! ## Sequential runs of the two backends (for cross-backend equivalence)

A request against the review contract, as issued by the worker pipeline. -/

inductive ReviewOp where
  | addLike (albumID : String)
  | addDislike (albumID : String)
deriving DecidableEq

/-- One sequential step of the DynamoDB backend. -/
def dynStep (t : DynTable) : ReviewOp → DynTable
  | .addLike a => (dynAddLike t a).2
  | .addDislike a => (dynAddDislike t a).2

/-- Sequential run of the DynamoDB backend from a given table. -/
def dynRunFrom (t : DynTable) : List ReviewOp → DynTable
  | [] => t
  | op :: rest => dynRunFrom (dynStep t op) rest

/-- Sequential run of the DynamoDB backend from the empty store. -/
def dynRun (ops : List ReviewOp) : DynTable :=
  dynRunFrom dynEmpty ops

/-- One sequential step of the MySQL backend.  `uuid` is the oracle standing
for `uuid.New().String()`; the `n`-th operation that inserts uses `uuid n`. -/
def mysqlStep (uuid : Nat → String) (tbl : MySQLTable) (n : Nat) :
    ReviewOp → MySQLTable
  | .addLike a => mysqlAddLike tbl a (uuid n)
  | .addDislike a => mysqlAddDislike tbl a (uuid n)

/-- Sequential run of the MySQL backend from a given table, consuming one
uuid index per operation. -/
def mysqlRunFrom (uuid : Nat → String) (tbl : MySQLTable) (n : Nat) :
    List ReviewOp → MySQLTable
  | [] => tbl
  | op :: rest => mysqlRunFrom uuid (mysqlStep uuid tbl n op) (n + 1) rest

/-- Sequential run of the MySQL backend from the empty table. -/
def mysqlRun (uuid : Nat → String) (ops : List ReviewOp) : MySQLTable :=
  mysqlRunFrom uuid [] 0 ops

/-! ## Domain event model (src/unnamed/part_017, package command) -/

/-- `type EventType string`. -/
abbrev EventType := String

/-- `EventTypeAlbumCreated`. -/
def EventTypeAlbumCreated : EventType := "ALBUM_CREATED"

/-- `EventTypeAlbumLiked`. -/
def EventTypeAlbumLiked : EventType := "ALBUM_LIKED"

/-- `EventTypeAlbumDisliked`. -/
def EventTypeAlbumDisliked : EventType := "ALBUM_DISLIKED"

/-- `EventTypeImageUploaded`. -/
def EventTypeImageUploaded : EventType := "IMAGE_UPLOADED"

/-- `AlbumCreatedEvent` payload. -/
structure AlbumCreatedEvent where
  albumID : String
  artist : String
  title : String
  year : String
  imageID : String
  imageSize : Int
deriving DecidableEq

/-- `AlbumReviewEvent` payload. -/
structure AlbumReviewEvent where
  albumID : String
  liked : Bool
deriving DecidableEq

/-- `ImageUploadedEvent` payload. -/
structure ImageUploadedEvent where
  albumID : String
  imageID : String
  imageSize : Int
  requiresProcessing : Bool
deriving DecidableEq

/-- The `Payload interface{}` field: one of the typed payloads, or any other
JSON value (as deserialized on the consumer side). -/
inductive Payload where
  | albumCreated (e : AlbumCreatedEvent)
  | albumReview (e : AlbumReviewEvent)
  | imageUploaded (e : ImageUploadedEvent)
  | raw (s : String)
deriving DecidableEq

/-- `DomainEvent` (part_017 lines 105–111).  `timestamp` holds the value of
`time.Now()` at construction, supplied as a parameter. -/
structure DomainEvent where
  id : String
  type : EventType
  timestamp : Nat
  payload : Payload
  metadata : List (String × String)
deriving DecidableEq

/-- `NewDomainEvent` (part_017 lines 113–122); `now` is `time.Now()`. -/
def NewDomainEvent (id : String) (eventType : EventType) (payload : Payload)
    (metadata : List (String × String)) (now : Nat) : DomainEvent :=
  { id := id, type := eventType, timestamp := now,
    payload := payload, metadata := metadata }

/-! ## SNS event bus (src/unnamed/part_015, package sns) -/

/-- `fmt.Sprintf("%t", b)`. -/
def sprintfBool (b : Bool) : String := if b then "true" else "false"

/-- `EventBus.PublishAlbumReview` (part_015 lines 129–146): builds the domain
event that is handed to `Publisher.Publish`.  The event id passed to
`NewDomainEvent` is `event.AlbumID`. -/
def publishAlbumReviewEvent (event : AlbumReviewEvent) (now : Nat) : DomainEvent :=
  let eventType := if !event.liked then EventTypeAlbumDisliked else EventTypeAlbumLiked
  NewDomainEvent event.albumID eventType (Payload.albumReview event)
    [("albumId", event.albumID), ("liked", sprintfBool event.liked)] now

/-- `EventBus.PublishAlbumCreated` (part_015): event id is `event.AlbumID`. -/
def publishAlbumCreatedEvent (event : AlbumCreatedEvent) (now : Nat) : DomainEvent :=
  NewDomainEvent event.albumID EventTypeAlbumCreated (Payload.albumCreated event)
    [("albumId", event.albumID)] now

/-- The `MessageDeduplicationId` (also the `MessageGroupId`) that
`Publisher.Publish` (part_015 lines 229–258) attaches to the SNS publish
request: `event.ID`. -/
def snsDeduplicationId (event : DomainEvent) : String := event.id

/-! ## SQS consumer (internal/eventbus/sqs/consumer.go) -/

/-- Handlers are Go closures; they are modelled symbolically by an identifier,
with behaviour supplied by an oracle in the theorems. -/
abbrev HandlerId := Nat

/-- An SQS message as seen by `processMessage`.  `bodyEvent` is the result of
`json.Unmarshal` of the body into a `DomainEvent` (`none` = unmarshal error);
`attributes` is `msg.Attributes` (system attributes such as
`ApproximateReceiveCount`); `messageAttributes` maps a message-attribute name
to its `StringValue` pointer (`none` = nil pointer). -/
structure SQSMessage where
  messageId : String
  bodyEvent : Option DomainEvent
  attributes : List (String × String)
  messageAttributes : List (String × Option String)
deriving DecidableEq

/-- The consumer: the handler registry (`map[command.EventType][]EventHandler`,
modelled as an association list) and `maxRetries`. -/
structure Consumer where
  handlers : List (EventType × List HandlerId)
  maxRetries : Int
deriving DecidableEq

/-- `NewConsumer` (consumer.go lines 30–37): empty registry, `maxRetries: 3`. -/
def newConsumer : Consumer :=
  { handlers := [], maxRetries := 3 }

/-- Map write `m[k] = v` on the association-list registry. -/
def setEntry (m : List (EventType × List HandlerId)) (k : EventType)
    (v : List HandlerId) : List (EventType × List HandlerId) :=
  match m with
  | [] => [(k, v)]
  | (k0, v0) :: rest =>
      if k0 == k then (k, v) :: rest else (k0, v0) :: setEntry rest k v

/-- `RegisterHandler` (consumer.go lines 39–45): ensure the slice exists, then
append the handler. -/
def registerHandler (c : Consumer) (eventType : EventType) (h : HandlerId) :
    Consumer :=
  let existing := (c.handlers.lookup eventType).getD []
  { c with handlers := setEntry c.handlers eventType (existing ++ [h]) }

/-- The handler slice the consumer holds for an event type. -/
def handlersFor (c : Consumer) (eventType : EventType) : List HandlerId :=
  (c.handlers.lookup eventType).getD []

/-- `fmt.Sscanf(s, "%d", &count)` with `count` left at 0 on a scan failure:
skip leading white space, an optional sign, then a digit run. -/
def sscanfInt (s : String) : Int :=
  let cs := s.data.dropWhile (fun c => c == ' ' || c == '\t' || c == '\n')
  let signed : Bool × List Char :=
    match cs with
    | '-' :: rest => (true, rest)
    | '+' :: rest => (false, rest)
    | _ => (false, cs)
  let ds := signed.2.takeWhile (fun c => c.isDigit)
  let val : Nat := ds.foldl (fun acc c => acc * 10 + (c.toNat - 48)) 0
  if ds.isEmpty then 0
  else if signed.1 then -(val : Int) else (val : Int)

/-- `getApproximateReceiveCount` (consumer.go lines 147–155). -/
def getApproximateReceiveCount (msg : SQSMessage) : Int :=
  match msg.attributes.lookup "ApproximateReceiveCount" with
  | some v => sscanfInt v
  | none => 0

/-- The event after the message-attribute override (consumer.go lines 98–103):
if `msg.MessageAttributes["EventType"]` exists with a non-nil `StringValue`,
`event.Type` is overwritten with it. -/
def effectiveEvent (msg : SQSMessage) (e : DomainEvent) : DomainEvent :=
  match msg.messageAttributes.lookup "EventType" with
  | some (some v) => { e with type := v }
  | some none => e
  | none => e

/-- Outcome of `processMessage`: the handlers invoked in order, the event
value they were handed, the number of handler errors collected, and whether
the message was deleted (acknowledged). -/
structure ProcessResult where
  invoked : List HandlerId
  delivered : Option DomainEvent
  handlerErrors : Nat
  deleted : Bool
deriving DecidableEq

/-- `processMessage` (consumer.go lines 81–130).  `behave h e = true` models
handler `h` returning nil on event `e`.  Unmarshal failure: message deleted.
Missing or empty handler slice: message deleted.  Otherwise every handler is
invoked in slice order, errors are collected, and the message is deleted iff
no handler failed or `approximateReceiveCount > maxRetries`. -/
def processMessage (c : Consumer) (behave : HandlerId → DomainEvent → Bool)
    (msg : SQSMessage) : ProcessResult :=
  match msg.bodyEvent with
  | none =>
      { invoked := [], delivered := none, handlerErrors := 0, deleted := true }
  | some e0 =>
      let event := effectiveEvent msg e0
      let hs := handlersFor c event.type
      if hs.isEmpty then
        { invoked := [], delivered := none, handlerErrors := 0, deleted := true }
      else
        let failures := hs.filter (fun h => !(behave h event))
        { invoked := hs, delivered := some event,
          handlerErrors := failures.length,
          deleted := failures.length == 0 ||
            getApproximateReceiveCount msg > c.maxRetries }

/-! ## Command-side album service (internal/service/command/album_service.go)

The service's collaborators (repository, storage, event bus) are modelled by
outcome oracles; the model records the trace of effectful steps taken and the
error returned to the caller. -/

/-- One effectful step taken by a command operation. -/
inductive CmdStep where
  | validate
  | processImage
  | saveAlbum
  | deleteImage
  | getAlbum
  | saveLike (liked : Bool)
  | publishAlbumCreated
  | publishImageUploaded
  | publishAlbumReview (liked : Bool)
  | logPublishFailure
deriving DecidableEq

/-- Outcomes of the collaborators of `CreateAlbum`. -/
structure CreateEnv where
  validateResult : Except String Unit
  processImageResult : Except String Unit
  saveAlbumResult : Except String Unit
  publishCreatedResult : Except String Unit
  publishImageResult : Except String Unit

/-- `CreateAlbum` (album_service.go lines 45–117): validate, process and store
the image, save the album (cleaning up the image on a save failure), then
publish the created event and the image-uploaded event; each publish failure
is logged and swallowed. -/
def createAlbum (env : CreateEnv) : List CmdStep × Except String Unit :=
  match env.validateResult with
  | .error e => ([CmdStep.validate], .error ("validation error: " ++ e))
  | .ok _ =>
  match env.processImageResult with
  | .error e =>
      ([CmdStep.validate, CmdStep.processImage],
       .error ("failed to process image: " ++ e))
  | .ok _ =>
  match env.saveAlbumResult with
  | .error e =>
      ([CmdStep.validate, CmdStep.processImage, CmdStep.saveAlbum,
        CmdStep.deleteImage],
       .error ("failed to save album: " ++ e))
  | .ok _ =>
  let createdSteps :=
    match env.publishCreatedResult with
    | .error _ => [CmdStep.publishAlbumCreated, CmdStep.logPublishFailure]
    | .ok _ => [CmdStep.publishAlbumCreated]
  let imageSteps :=
    match env.publishImageResult with
    | .error _ => [CmdStep.publishImageUploaded, CmdStep.logPublishFailure]
    | .ok _ => [CmdStep.publishImageUploaded]
  ([CmdStep.validate, CmdStep.processImage, CmdStep.saveAlbum] ++
    createdSteps ++ imageSteps, .ok ())

/-- Outcomes of the collaborators of `LikeAlbum`/`DislikeAlbum`. -/
structure ReviewCmdEnv where
  getAlbumResult : Except String Unit
  saveLikeResult : Except String Unit
  publishResult : Except String Unit

/-- `LikeAlbum` (album_service.go lines 119–147) and `DislikeAlbum` (lines
149–176), which differ only in the `liked` flag: verify the album exists, save
the review row, publish the review event; a publish failure is logged and
swallowed. -/
def reviewAlbum (liked : Bool) (env : ReviewCmdEnv) :
    List CmdStep × Except String Unit :=
  match env.getAlbumResult with
  | .error e => ([CmdStep.getAlbum], .error ("failed to get album: " ++ e))
  | .ok _ =>
  match env.saveLikeResult with
  | .error e =>
      ([CmdStep.getAlbum, CmdStep.saveLike liked],
       .error ((if liked then "failed to save like: " else
         "failed to save dislike: ") ++ e))
  | .ok _ =>
  match env.publishResult with
  | .error _ =>
      ([CmdStep.getAlbum, CmdStep.saveLike liked,
        CmdStep.publishAlbumReview liked, CmdStep.logPublishFailure], .ok ())
  | .ok _ =>
      ([CmdStep.getAlbum, CmdStep.saveLike liked,
        CmdStep.publishAlbumReview liked], .ok ())

/-! ## Review message processor
    (internal/service/image/local_service.go, package review) -/

/-- A message as handled by the review `MessageProcessor`; `body` stands for
the raw SQS body and `receiveCount` for the number of deliveries so far (the
processor never requests or reads this attribute). -/
structure ReviewMsg where
  messageId : String
  body : String
  receiveCount : Nat
deriving DecidableEq

/-- One action of the processor loop. -/
inductive ProcAction where
  | handle (m : ReviewMsg) (ok : Bool)
  | deleteMessage (m : ReviewMsg)
deriving DecidableEq

/-- `MessageProcessor.processMessages` (local_service.go lines 145–185), per
received batch: for each message, run `handleMessage`; on error, log and
`continue` (no delete); on success, delete the message.  `handleOk` models
`handleMessage` returning nil, as a function of the message body alone. -/
def processMessages (handleOk : String → Bool) :
    List ReviewMsg → List ProcAction
  | [] => []
  | m :: rest =>
      if handleOk m.body then
        ProcAction.handle m true :: ProcAction.deleteMessage m ::
          processMessages handleOk rest
      else
        ProcAction.handle m false :: processMessages handleOk rest

/-! ## Theorems -/

/-- C1 counterexample: on an album with no existing aggregate, the
document-store `AddLike` does not issue a single conditional atomic update in
one round trip: it issues a prior `GetItem` read followed by a separate
`PutItem` create, and no update expression at all. -/
theorem dyn_addLike_not_single_round_trip :
    (dynAddLike dynEmpty "A1").1 =
      [DynRequest.getItem "A1",
       DynRequest.putItem { album_id := "A1", like_count := 1, dislike_count := 0 }] ∧
    DynRequest.updateAddCount "A1" "like_count" ∉ (dynAddLike dynEmpty "A1").1 ∧
    (dynAddLike dynEmpty "A1").1.length ≠ 1 := by
  refine ⟨rfl, by decide, by decide⟩

/-- C1 (amended): every document-store `addLike`/`addDislike` call first
issues a `GetItem` read for the aggregate; when the aggregate is absent it
then issues a separate `PutItem` creating it with the counter at 1, and when
the aggregate exists it then issues one conditional atomic update expression
(`SET counter = if_not_exists(counter, :zero) + :incr`) — two round trips in
either case, with no application-level lock taken. -/
theorem dyn_addCount_read_then_write (t : DynTable) (albumID counterName : String) :
    (dynGetByAlbumID t albumID = none →
      (dynAddCount t albumID counterName).1 =
        [DynRequest.getItem albumID,
         DynRequest.putItem (dynNewReview albumID counterName)]) ∧
    (∀ r, dynGetByAlbumID t albumID = some r →
      (dynAddCount t albumID counterName).1 =
        [DynRequest.getItem albumID,
         DynRequest.updateAddCount albumID counterName]) := by
  constructor
  · intro h
    simp [dynAddCount, h]
  · intro r h
    simp [dynAddCount, h]

/-- C1 witness: the amended statement evaluated on the empty store and on a
store holding an aggregate for `"A1"`. -/
theorem dyn_addCount_read_then_write_witness :
    (dynAddCount dynEmpty "A1" "like_count").1 =
      [DynRequest.getItem "A1",
       DynRequest.putItem (dynNewReview "A1" "like_count")] :=
  (dyn_addCount_read_then_write dynEmpty "A1" "like_count").1 rfl

/-- C6: for both backends, `addLike` on an album with no existing aggregate
creates it with `likeCount = 1, dislikeCount = 0`, and `addDislike` creates it
with `likeCount = 0, dislikeCount = 1`. -/
theorem lazy_creation (t : DynTable) (tbl : MySQLTable) (a rid : String)
    (hdyn : dynGetByAlbumID t a = none)
    (hmy : mysqlGetByAlbumID tbl a = none) :
    dynCounts (dynAddLike t a).2 a = some (1, 0) ∧
    dynCounts (dynAddDislike t a).2 a = some (0, 1) ∧
    mysqlCounts (mysqlAddLike tbl a rid) a = some (1, 0) ∧
    mysqlCounts (mysqlAddDislike tbl a rid) a = some (0, 1) := by
  have hfind : tbl.find? (fun row => row.album_id == a) = none := hmy
  have ht : t a = none := hdyn
  refine ⟨?_, ?_, ?_, ?_⟩
  · simp [dynAddLike, dynAddCount, ht, dynApply, dynNewReview, dynCounts,
      dynGetByAlbumID]
  · simp [dynAddDislike, dynAddCount, ht, dynApply, dynNewReview, dynCounts,
      dynGetByAlbumID]
  · simp [mysqlAddLike, mysqlAddCount, mysqlSelectReviewID, hfind, mysqlCounts,
      mysqlGetByAlbumID, List.find?_append, List.find?]
  · simp [mysqlAddDislike, mysqlAddCount, mysqlSelectReviewID, hfind, mysqlCounts,
      mysqlGetByAlbumID, List.find?_append, List.find?]

/-- C6 witness: lazy creation evaluated on the two empty stores. -/
theorem lazy_creation_witness :
    dynCounts (dynAddLike dynEmpty "A1").2 "A1" = some (1, 0) ∧
    dynCounts (dynAddDislike dynEmpty "A1").2 "A1" = some (0, 1) ∧
    mysqlCounts (mysqlAddLike [] "A1" "rid0") "A1" = some (1, 0) ∧
    mysqlCounts (mysqlAddDislike [] "A1" "rid0") "A1" = some (0, 1) :=
  lazy_creation dynEmpty [] "A1" "rid0" rfl rfl

/-- C7: for both backends, `delete` on an album with no existing aggregate
returns a NotFound-class error (`ConditionalCheckFailedException` from the
conditional `DeleteItem`; `review not found` from the zero-rows-affected
check) and leaves the store exactly as it was. -/
theorem delete_absent_fails (t : DynTable) (tbl : MySQLTable) (a : String)
    (hdyn : dynGetByAlbumID t a = none)
    (hmy : mysqlGetByAlbumID tbl a = none) :
    (dynDelete t a).2.1 = t ∧
    (dynDelete t a).2.2 = Except.error "ConditionalCheckFailedException" ∧
    (mysqlDelete tbl a).1 = tbl ∧
    (mysqlDelete tbl a).2 = Except.error "review not found" := by
  have ht : t a = none := hdyn
  have hall : ∀ row ∈ tbl, ¬(row.album_id == a) := by
    intro row hrow
    simpa using List.find?_eq_none.mp hmy row hrow
  have hfilter : tbl.filter (fun row => !(row.album_id == a)) = tbl := by
    refine List.filter_eq_self.mpr ?_
    intro row hrow
    simpa using hall row hrow
  refine ⟨?_, ?_, ?_, ?_⟩
  · simp [dynDelete, dynApply, ht]
  · simp [dynDelete, dynApply, ht]
  · simp [mysqlDelete, hfilter]
  · simp [mysqlDelete, hfilter]

/-- C7 witness: delete on an absent album evaluated on the two empty stores. -/
theorem delete_absent_fails_witness :
    (dynDelete dynEmpty "A1").2.2 =
      Except.error "ConditionalCheckFailedException" ∧
    (mysqlDelete [] "A1").2 = Except.error "review not found" :=
  ⟨(delete_absent_fails dynEmpty [] "A1" rfl rfl).2.1,
   (delete_absent_fails dynEmpty [] "A1" rfl rfl).2.2.2⟩

/-- C4 counterexample: two events published for two independent like requests
on the same album are distinct events (different timestamps) yet carry the
same event id, refuting that every event gets a globally unique id at
creation. -/
theorem domain_event_id_not_unique :
    (publishAlbumReviewEvent { albumID := "A1", liked := true } 0).id =
      (publishAlbumReviewEvent { albumID := "A1", liked := true } 1).id ∧
    publishAlbumReviewEvent { albumID := "A1", liked := true } 0 ≠
      publishAlbumReviewEvent { albumID := "A1", liked := true } 1 := by
  exact ⟨rfl, by decide⟩

/-- C4 (amended): a `DomainEvent` is assigned the payload's `albumId` as its
id at creation, and that id is what the publisher attaches as the broker
deduplication/grouping key; hence events for the same album share one id and
only events for distinct albums carry distinct ids. -/
theorem domain_event_id_is_album_id (e : AlbumReviewEvent) (now : Nat)
    (e2 : AlbumCreatedEvent) (now2 : Nat) :
    (publishAlbumReviewEvent e now).id = e.albumID ∧
    (publishAlbumCreatedEvent e2 now2).id = e2.albumID ∧
    snsDeduplicationId (publishAlbumReviewEvent e now) = e.albumID := by
  exact ⟨rfl, rfl, rfl⟩

/-- C8: in every command operation whose durable write succeeded, a failure
to publish the resulting domain event is logged and the operation still
returns success; the write stays in the trace and no compensating action
(image cleanup) is taken.  `reviewAlbum true` is `LikeAlbum`, `reviewAlbum
false` is `DislikeAlbum`. -/
theorem publish_failure_nonfatal (cenv : CreateEnv) (renv : ReviewCmdEnv)
    (liked : Bool) (ec er : String)
    (hv : cenv.validateResult = Except.ok ())
    (hi : cenv.processImageResult = Except.ok ())
    (hs : cenv.saveAlbumResult = Except.ok ())
    (hpc : cenv.publishCreatedResult = Except.error ec)
    (hg : renv.getAlbumResult = Except.ok ())
    (hsl : renv.saveLikeResult = Except.ok ())
    (hp : renv.publishResult = Except.error er) :
    (createAlbum cenv).2 = Except.ok () ∧
    CmdStep.saveAlbum ∈ (createAlbum cenv).1 ∧
    CmdStep.logPublishFailure ∈ (createAlbum cenv).1 ∧
    CmdStep.deleteImage ∉ (createAlbum cenv).1 ∧
    (reviewAlbum liked renv).2 = Except.ok () ∧
    (reviewAlbum liked renv).1 =
      [CmdStep.getAlbum, CmdStep.saveLike liked,
       CmdStep.publishAlbumReview liked, CmdStep.logPublishFailure] := by
  rcases hpi : cenv.publishImageResult with e2 | u
  · refine ⟨?_, ?_, ?_, ?_, ?_, ?_⟩ <;>
      simp [createAlbum, reviewAlbum, hv, hi, hs, hpc, hpi, hg, hsl, hp]
  · refine ⟨?_, ?_, ?_, ?_, ?_, ?_⟩ <;>
      simp [createAlbum, reviewAlbum, hv, hi, hs, hpc, hpi, hg, hsl, hp]

/-- C8 witness: the non-fatal publish failure evaluated at concrete
collaborator outcomes. -/
theorem publish_failure_nonfatal_witness :
    (createAlbum { validateResult := Except.ok (),
                   processImageResult := Except.ok (),
                   saveAlbumResult := Except.ok (),
                   publishCreatedResult := Except.error "sns down",
                   publishImageResult := Except.ok () }).2 = Except.ok () ∧
    (reviewAlbum true { getAlbumResult := Except.ok (),
                        saveLikeResult := Except.ok (),
                        publishResult := Except.error "sns down" }).2 =
      Except.ok () := by
  have h := publish_failure_nonfatal
    { validateResult := Except.ok (), processImageResult := Except.ok (),
      saveAlbumResult := Except.ok (),
      publishCreatedResult := Except.error "sns down",
      publishImageResult := Except.ok () }
    { getAlbumResult := Except.ok (), saveLikeResult := Except.ok (),
      publishResult := Except.error "sns down" }
    true "sns down" "sns down" rfl rfl rfl rfl rfl rfl rfl
  exact ⟨h.1, h.2.2.2.2.1⟩

/-- Helper for the review message processor: a successfully handled message
leaves a successful handle action in the trace. -/
lemma handle_mem_of_success (f : String → Bool) :
    ∀ (msgs : List ReviewMsg) (m : ReviewMsg), m ∈ msgs → f m.body = true →
      ProcAction.handle m true ∈ processMessages f msgs := by
  intro msgs
  induction msgs with
  | nil => intro m hm; simp at hm
  | cons x rest ih =>
      intro m hm hf
      rcases List.mem_cons.mp hm with h | h
      · subst h
        simp [processMessages, hf]
      · by_cases hx : f x.body <;>
          simp [processMessages, hx, ih m h hf]

/-- C10: in the review `MessageProcessor` pipeline, a message is deleted from
the queue exactly when its handling succeeded — a message whose handling
returns an error is never deleted, whatever its receive count (the
`receiveCount` field does not enter the decision) — and every deletion is
preceded by a successful handle of the same message. -/
theorem review_processor_delete_iff_success (f : String → Bool)
    (msgs : List ReviewMsg) (m : ReviewMsg) :
    (ProcAction.deleteMessage m ∈ processMessages f msgs ↔
      m ∈ msgs ∧ f m.body = true) ∧
    (ProcAction.deleteMessage m ∈ processMessages f msgs →
      ProcAction.handle m true ∈ processMessages f msgs) := by
  have hiff : ProcAction.deleteMessage m ∈ processMessages f msgs ↔
      m ∈ msgs ∧ f m.body = true := by
    induction msgs with
    | nil => simp [processMessages]
    | cons x rest ih =>
        cases hx : f x.body
        · have htrace : processMessages f (x :: rest) =
              ProcAction.handle x false :: processMessages f rest := by
            simp [processMessages, hx]
          rw [htrace]
          constructor
          · intro h
            rcases List.mem_cons.mp h with h | h
            · exact ProcAction.noConfusion h
            · rcases ih.mp h with ⟨hm, hf⟩
              exact ⟨List.mem_cons_of_mem x hm, hf⟩
          · rintro ⟨hm, hf⟩
            rcases List.mem_cons.mp hm with rfl | hm
            · rw [hf] at hx
              exact Bool.noConfusion hx
            · exact List.mem_cons_of_mem _ (ih.mpr ⟨hm, hf⟩)
        · have htrace : processMessages f (x :: rest) =
              ProcAction.handle x true :: ProcAction.deleteMessage x ::
                processMessages f rest := by
            simp [processMessages, hx]
          rw [htrace]
          constructor
          · intro h
            rcases List.mem_cons.mp h with h | h
            · exact ProcAction.noConfusion h
            · rcases List.mem_cons.mp h with h | h
              · have hmx : m = x := by injection h
                subst hmx
                exact ⟨List.mem_cons_self m rest, hx⟩
              · rcases ih.mp h with ⟨hm, hf⟩
                exact ⟨List.mem_cons_of_mem x hm, hf⟩
          · rintro ⟨hm, hf⟩
            rcases List.mem_cons.mp hm with rfl | hm
            · exact List.mem_cons_of_mem _ (List.mem_cons_self _ _)
            · exact List.mem_cons_of_mem _
                (List.mem_cons_of_mem _ (ih.mpr ⟨hm, hf⟩))
  refine ⟨hiff, ?_⟩
  intro hdel
  rcases hiff.mp hdel with ⟨hm, hf⟩
  exact handle_mem_of_success f msgs m hm hf

/-- C10 witness: the deletion policy evaluated on a concrete batch in which
one message handles successfully and one fails. -/
theorem review_processor_delete_iff_success_witness :
    ProcAction.deleteMessage { messageId := "m1", body := "ok", receiveCount := 1 } ∈
      processMessages (fun s => s == "ok")
        [{ messageId := "m1", body := "ok", receiveCount := 1 },
         { messageId := "m2", body := "bad", receiveCount := 9 }] ∧
    ProcAction.deleteMessage { messageId := "m2", body := "bad", receiveCount := 9 } ∉
      processMessages (fun s => s == "ok")
        [{ messageId := "m1", body := "ok", receiveCount := 1 },
         { messageId := "m2", body := "bad", receiveCount := 9 }] := by
  constructor
  · exact (review_processor_delete_iff_success (fun s => s == "ok")
      [{ messageId := "m1", body := "ok", receiveCount := 1 },
       { messageId := "m2", body := "bad", receiveCount := 9 }]
      { messageId := "m1", body := "ok", receiveCount := 1 }).1.mpr
      ⟨by decide, by decide⟩
  · intro hmem
    have h := (review_processor_delete_iff_success (fun s => s == "ok")
      [{ messageId := "m1", body := "ok", receiveCount := 1 },
       { messageId := "m2", body := "bad", receiveCount := 9 }]
      { messageId := "m2", body := "bad", receiveCount := 9 }).1.mp hmem
    exact absurd h.2 (by decide)

/-- Helper: a registry write is read back at the written key. -/
lemma lookup_setEntry_self (m : List (EventType × List HandlerId))
    (k : EventType) (v : List HandlerId) :
    (setEntry m k v).lookup k = some v := by
  induction m with
  | nil => simp [setEntry, List.lookup]
  | cons p rest ih =>
      obtain ⟨k0, v0⟩ := p
      by_cases h : k0 = k
      · subst h
        simp [setEntry, List.lookup]
      · have hb : (k0 == k) = false := beq_eq_false_iff_ne.mpr h
        have hb2 : (k == k0) = false := beq_eq_false_iff_ne.mpr (Ne.symm h)
        simp [setEntry, hb, hb2, List.lookup, ih]

/-- Helper: a registry write leaves every other key unread. -/
lemma lookup_setEntry_ne (m : List (EventType × List HandlerId))
    (k k' : EventType) (v : List HandlerId) (h : k' ≠ k) :
    (setEntry m k v).lookup k' = m.lookup k' := by
  have hb : (k' == k) = false := beq_eq_false_iff_ne.mpr h
  induction m with
  | nil => simp [setEntry, List.lookup, hb]
  | cons p rest ih =>
      obtain ⟨k0, v0⟩ := p
      by_cases h0 : k0 = k
      · subst h0
        simp [setEntry, List.lookup, hb]
      · have hb0 : (k0 == k) = false := beq_eq_false_iff_ne.mpr h0
        simp [setEntry, hb0, List.lookup, ih]

/-- Helper: `RegisterHandler` appends to the slice of the registered type. -/
lemma handlersFor_registerHandler_self (c : Consumer) (ty : EventType)
    (h : HandlerId) :
    handlersFor (registerHandler c ty h) ty = handlersFor c ty ++ [h] := by
  simp [handlersFor, registerHandler, lookup_setEntry_self]

/-- Placeholder event used only to read `Option.getD` in statements. -/
def defaultEvent : DomainEvent :=
  { id := "", type := "", timestamp := 0, payload := Payload.raw "",
    metadata := [] }

/-! Concrete fixtures used by witnesses and counterexamples. -/

/-- A concrete `ALBUM_LIKED` body event. -/
def evLiked : DomainEvent :=
  { id := "A1", type := "ALBUM_LIKED", timestamp := 0,
    payload := Payload.albumReview { albumID := "A1", liked := true },
    metadata := [] }

/-- A consumer with one handler registered for `ALBUM_LIKED`. -/
def consumerOneHandler : Consumer :=
  registerHandler newConsumer "ALBUM_LIKED" 0

/-- A consumer with two handlers registered (in order) for `ALBUM_LIKED`. -/
def consumerTwoHandlers : Consumer :=
  registerHandler (registerHandler newConsumer "ALBUM_LIKED" 0) "ALBUM_LIKED" 1

/-- A handler oracle under which every handler fails. -/
def failingBehave : HandlerId → DomainEvent → Bool := fun _ _ => false

/-- A handler oracle under which only handler 0 succeeds. -/
def mixedBehave : HandlerId → DomainEvent → Bool := fun h _ => h == 0

/-- A message carrying `evLiked` with a given `ApproximateReceiveCount`. -/
def msgReceived (count : String) : SQSMessage :=
  { messageId := "m1", bodyEvent := some evLiked,
    attributes := [("ApproximateReceiveCount", count)],
    messageAttributes := [] }

/-- C3: the consumer deletes a message exactly when every invoked handler
succeeded or `approximateReceiveCount` exceeds `maxRetries`; with the default
ceiling 3 and handlers that always fail, the message is deleted exactly on a
delivery whose receive count exceeds 3 (so on the 4th delivery, never
earlier). -/
theorem consumer_ack_policy (c : Consumer)
    (behave : HandlerId → DomainEvent → Bool) (msg : SQSMessage)
    (e : DomainEvent) :
    ((processMessage c behave msg).deleted ↔
      ((∀ h ∈ (processMessage c behave msg).invoked,
          behave h ((processMessage c behave msg).delivered.getD defaultEvent)
            = true) ∨
        getApproximateReceiveCount msg > c.maxRetries)) ∧
    (c.maxRetries = 3 → msg.bodyEvent = some e →
      handlersFor c (effectiveEvent msg e).type ≠ [] →
      (∀ h ∈ handlersFor c (effectiveEvent msg e).type,
        behave h (effectiveEvent msg e) = false) →
      ((processMessage c behave msg).deleted ↔
        getApproximateReceiveCount msg > 3)) := by
  constructor
  · cases hbody : msg.bodyEvent with
    | none => simp [processMessage, hbody]
    | some e0 =>
        cases hemp : (handlersFor c (effectiveEvent msg e0).type).isEmpty
        · simp only [processMessage, hbody, hemp, Bool.false_eq_true,
            if_false, Bool.or_eq_true, decide_eq_true_eq, beq_iff_eq,
            List.length_eq_zero, List.filter_eq_nil_iff]
          simp
        · simp [processMessage, hbody, hemp]
  · intro hmax hbody hne hfail
    have hemp : (handlersFor c (effectiveEvent msg e).type).isEmpty = false := by
      cases hv : handlersFor c (effectiveEvent msg e).type with
      | nil => exact absurd hv hne
      | cons a l => simp
    have hfilter :
        (handlersFor c (effectiveEvent msg e).type).filter
          (fun h => !(behave h (effectiveEvent msg e))) =
        handlersFor c (effectiveEvent msg e).type := by
      refine List.filter_eq_self.mpr ?_
      intro h hh
      simp [hfail h hh]
    have hlen :
        ((handlersFor c (effectiveEvent msg e).type).filter
          (fun h => !(behave h (effectiveEvent msg e)))).length ≠ 0 := by
      rw [hfilter]
      simpa [List.length_eq_zero] using hne
    simp [processMessage, hbody, hemp, hmax, hlen]

/-- C3 witness: the failing-handler instantiation evaluated at receive counts
4 and 3. -/
theorem consumer_ack_policy_witness :
    (processMessage consumerOneHandler failingBehave (msgReceived "4")).deleted
      = true ∧
    ¬ ((processMessage consumerOneHandler failingBehave
        (msgReceived "3")).deleted = true) := by
  have h4 := (consumer_ack_policy consumerOneHandler failingBehave
    (msgReceived "4") evLiked).2 rfl rfl (by decide) (by decide)
  have h3 := (consumer_ack_policy consumerOneHandler failingBehave
    (msgReceived "3") evLiked).2 rfl rfl (by decide) (by decide)
  exact ⟨h4.mpr (by decide), fun hd => absurd (h3.mp hd) (by decide)⟩

/-- C5 counterexample: with one registered handler that fails and a receive
count above the retry ceiling, the message is acknowledged even though not
all handlers of the pass succeeded. -/
theorem consumer_ack_despite_failure :
    (processMessage consumerOneHandler failingBehave (msgReceived "4")).invoked
      = [0] ∧
    failingBehave 0 evLiked = false ∧
    (processMessage consumerOneHandler failingBehave (msgReceived "4")).deleted
      = true := by
  refine ⟨by decide, rfl, by decide⟩

/-- C5 (amended): for a message whose (effective) event type has a non-empty
handler slice, every handler of the slice is invoked, in registration order
(`RegisterHandler` appends), exactly once and regardless of other handlers'
failures; and the message is acknowledged iff all handlers of the pass
succeeded — unless `approximateReceiveCount` exceeds the retry ceiling, in
which case it is acknowledged despite failures. -/
theorem consumer_dispatch_and_ack (c : Consumer)
    (behave : HandlerId → DomainEvent → Bool) (msg : SQSMessage)
    (e : DomainEvent) (ty : EventType) (hid : HandlerId)
    (hbody : msg.bodyEvent = some e)
    (hne : handlersFor c (effectiveEvent msg e).type ≠ []) :
    (processMessage c behave msg).invoked =
      handlersFor c (effectiveEvent msg e).type ∧
    (processMessage c behave msg).delivered = some (effectiveEvent msg e) ∧
    handlersFor (registerHandler c ty hid) ty = handlersFor c ty ++ [hid] ∧
    (¬ getApproximateReceiveCount msg > c.maxRetries →
      ((processMessage c behave msg).deleted ↔
        ∀ h ∈ handlersFor c (effectiveEvent msg e).type,
          behave h (effectiveEvent msg e) = true)) := by
  have hemp : (handlersFor c (effectiveEvent msg e).type).isEmpty = false := by
    cases hv : handlersFor c (effectiveEvent msg e).type with
    | nil => exact absurd hv hne
    | cons a l => simp
  refine ⟨?_, ?_, handlersFor_registerHandler_self c ty hid, ?_⟩
  · simp [processMessage, hbody, hemp]
  · simp [processMessage, hbody, hemp]
  · intro hcount
    simp [processMessage, hbody, hemp, hcount, List.length_eq_zero,
      List.filter_eq_nil_iff]

/-- C5 witness: both handlers registered for `ALBUM_LIKED` run in
registration order although the second one fails, and the message is not
acknowledged. -/
theorem consumer_dispatch_and_ack_witness :
    (processMessage consumerTwoHandlers mixedBehave (msgReceived "1")).invoked
      = [0, 1] ∧
    mixedBehave 1 evLiked = false ∧
    (processMessage consumerTwoHandlers mixedBehave (msgReceived "1")).deleted
      = false := by
  have h := consumer_dispatch_and_ack consumerTwoHandlers mixedBehave
    (msgReceived "1") evLiked "ALBUM_LIKED" 9 rfl (by decide)
  refine ⟨h.1.trans (by decide), rfl, ?_⟩
  have hiff := h.2.2.2 (by decide)
  cases hd : (processMessage consumerTwoHandlers mixedBehave
      (msgReceived "1")).deleted
  · rfl
  · exact absurd (hiff.mp hd) (by decide)

/-- C9: when a message carries an `EventType` message attribute with a
non-nil value, `processMessage` overwrites the body event's type with the
attribute before handler lookup: dispatch follows the attribute's value while
the payload handed to the handlers is the one deserialized from the body. -/
theorem attribute_overrides_event_type (c : Consumer)
    (behave : HandlerId → DomainEvent → Bool) (msg : SQSMessage)
    (e : DomainEvent) (v : EventType)
    (hbody : msg.bodyEvent = some e)
    (hattr : msg.messageAttributes.lookup "EventType" = some (some v)) :
    effectiveEvent msg e = { e with type := v } ∧
    (effectiveEvent msg e).payload = e.payload ∧
    (handlersFor c v ≠ [] →
      (processMessage c behave msg).invoked = handlersFor c v ∧
      (processMessage c behave msg).delivered = some { e with type := v }) := by
  have heff : effectiveEvent msg e = { e with type := v } := by
    simp [effectiveEvent, hattr]
  refine ⟨heff, by rw [heff], ?_⟩
  intro hne
  have hemp : (handlersFor c v).isEmpty = false := by
    cases hv : handlersFor c v with
    | nil => exact absurd hv hne
    | cons a l => simp
  constructor
  · simp [processMessage, hbody, heff, hemp]
  · simp [processMessage, hbody, heff, hemp]

/-- C9 witness: a body typed `ALBUM_LIKED` delivered with an `EventType`
attribute of `ALBUM_DISLIKED` dispatches to the `ALBUM_DISLIKED` handler with
the body's payload. -/
theorem attribute_overrides_event_type_witness :
    (processMessage (registerHandler newConsumer "ALBUM_DISLIKED" 7)
      failingBehave
      { messageId := "m2", bodyEvent := some evLiked, attributes := [],
        messageAttributes := [("EventType", some "ALBUM_DISLIKED")] }).invoked
      = [7] := by
  have h := attribute_overrides_event_type
    (registerHandler newConsumer "ALBUM_DISLIKED" 7) failingBehave
    { messageId := "m2", bodyEvent := some evLiked, attributes := [],
      messageAttributes := [("EventType", some "ALBUM_DISLIKED")] }
    evLiked "ALBUM_DISLIKED" rfl rfl
  exact ((h.2.2 (by decide)).1).trans (by decide)

/-- Helper: `find?` commutes with a map that preserves the predicate. -/
lemma find?_map_comm {α : Type} (f : α → α) (p : α → Bool)
    (hp : ∀ x, p (f x) = p x) :
    ∀ l : List α, (l.map f).find? p = (l.find? p).map f
  | [] => rfl
  | x :: rest => by
      cases hx : p x
      · rw [List.map_cons, List.find?_cons_of_neg _ (by simp [hp, hx]),
          List.find?_cons_of_neg _ (by simp [hx])]
        exact find?_map_comm f p hp rest
      · rw [List.map_cons, List.find?_cons_of_pos _ (by simp [hp, hx]),
          List.find?_cons_of_pos _ hx]
        rfl

/-- Helper: the fresh review built by the DynamoDB `addCount` is keyed by the
requested album, whatever the counter name. -/
lemma dynNewReview_album_id (a c : String) : (dynNewReview a c).album_id = a := by
  unfold dynNewReview
  by_cases h1 : (c == "like_count") = true <;>
    by_cases h2 : (c == "dislike_count") = true <;> simp [h1, h2]

/-- Helper: the counters of the fresh review built by the DynamoDB
`addCount`. -/
lemma dynNewReview_counts (a c : String) :
    (dynNewReview a c).like_count = (if c == "like_count" then 1 else 0) ∧
    (dynNewReview a c).dislike_count = (if c == "dislike_count" then 1 else 0) := by
  unfold dynNewReview
  by_cases h1 : c = "like_count"
  · subst h1
    refine ⟨by simp, by simp⟩
  · by_cases h2 : c = "dislike_count"
    · subst h2
      refine ⟨by simp, by simp⟩
    · have hb1 : (c == "like_count") = false := beq_eq_false_iff_ne.mpr h1
      have hb2 : (c == "dislike_count") = false := beq_eq_false_iff_ne.mpr h2
      simp [hb1, hb2]

/-- Helper: the MySQL counter update leaves `album_id` unchanged. -/
lemma mysqlBump_album_id (c : String) (x : MySQLRow) :
    (mysqlBump c x).album_id = x.album_id := by
  unfold mysqlBump
  by_cases h1 : (c == "like_count") = true <;>
    by_cases h2 : (c == "dislike_count") = true <;> simp [h1, h2]

/-- Helper: the MySQL counter update leaves `review_id` unchanged. -/
lemma mysqlBump_review_id (c : String) (x : MySQLRow) :
    (mysqlBump c x).review_id = x.review_id := by
  unfold mysqlBump
  by_cases h1 : (c == "like_count") = true <;>
    by_cases h2 : (c == "dislike_count") = true <;> simp [h1, h2]

/-- Helper: starting from equal counters, the MySQL column update and the
DynamoDB update expression produce equal counters again. -/
lemma bump_counts_agree (c : String) (x : MySQLRow) (r : DynReview)
    (hl : x.like_count = r.like_count) (hd : x.dislike_count = r.dislike_count) :
    (mysqlBump c x).like_count = (applyAddCount c r).like_count ∧
    (mysqlBump c x).dislike_count = (applyAddCount c r).dislike_count := by
  unfold mysqlBump applyAddCount
  by_cases h1 : (c == "like_count") = true <;>
    by_cases h2 : (c == "dislike_count") = true <;> simp [h1, h2, hl, hd]

/-- The coupling invariant of the cross-backend equivalence: equal observable
counters for every album, pairwise-distinct MySQL synthetic row ids, and
every row id drawn from an already-consumed uuid index. -/
def EquivInv (uuid : Nat → String) (t : DynTable) (tbl : MySQLTable)
    (n : Nat) : Prop :=
  (∀ a, mysqlCounts tbl a = dynCounts t a) ∧
  (tbl.map (fun row => row.review_id)).Nodup ∧
  (∀ row ∈ tbl, ∃ i, i < n ∧ row.review_id = uuid i)

/-- Helper: the invariant holds at the two empty stores. -/
lemma equivInv_empty (uuid : Nat → String) : EquivInv uuid dynEmpty [] 0 := by
  refine ⟨fun a => rfl, by simp, by simp⟩

/-- Helper: one `addCount` against both backends preserves the coupling
invariant (for any counter name). -/
lemma equivInv_addCount (uuid : Nat → String)
    (hinj : Function.Injective uuid) (t : DynTable) (tbl : MySQLTable)
    (n : Nat) (a c : String) (hInv : EquivInv uuid t tbl n) :
    EquivInv uuid (dynAddCount t a c).2 (mysqlAddCount tbl a c (uuid n))
      (n + 1) := by
  obtain ⟨hcounts, hnodup, hprov⟩ := hInv
  cases ht : t a with
  | none =>
      have hfind : tbl.find? (fun row => row.album_id == a) = none := by
        have h := hcounts a
        rw [dynCounts, dynGetByAlbumID, ht] at h
        unfold mysqlCounts mysqlGetByAlbumID at h
        simpa using h
      have hmy : mysqlAddCount tbl a c (uuid n) =
          tbl ++ [{ review_id := uuid n, album_id := a,
                    like_count := if c == "like_count" then 1 else 0,
                    dislike_count := if c == "dislike_count" then 1 else 0 }] := by
        simp [mysqlAddCount, mysqlSelectReviewID, hfind]
      have hdynT : ∀ k, (dynAddCount t a c).2 k =
          if k == a then some (dynNewReview a c) else t k := by
        intro k
        simp [dynAddCount, dynGetByAlbumID, ht, dynApply, dynNewReview_album_id]
      refine ⟨?_, ?_, ?_⟩
      · intro b
        by_cases hb : b = a
        · subst hb
          rw [hmy]
          unfold mysqlCounts mysqlGetByAlbumID
          have hdb : (dynAddCount t b c).2 b = some (dynNewReview b c) := by
            rw [hdynT b]
            simp
          rw [List.find?_append, hfind, Option.none_or,
            List.find?_cons_of_pos _ (by simp), dynCounts, dynGetByAlbumID,
            hdb, Option.map_some', Option.map_some',
            (dynNewReview_counts b c).1, (dynNewReview_counts b c).2]
        · have hba : (b == a) = false := beq_eq_false_iff_ne.mpr hb
          have hab : (a == b) = false := beq_eq_false_iff_ne.mpr (Ne.symm hb)
          rw [hmy]
          unfold mysqlCounts mysqlGetByAlbumID
          rw [List.find?_append, List.find?_cons_of_neg _ (by simp [hab]),
            List.find?_nil, Option.or_none, dynCounts, dynGetByAlbumID,
            hdynT b, if_neg (by simp [hba])]
          exact hcounts b
      · rw [hmy, List.map_append]
        refine List.Nodup.append hnodup (by simp) (List.disjoint_left.mpr ?_)
        intro x hx hmem
        rcases List.mem_map.mp hx with ⟨row, hrow, rfl⟩
        rcases hprov row hrow with ⟨i, hi, hid⟩
        have hxn : row.review_id = uuid n := by
          simpa using hmem
        rw [hid] at hxn
        exact absurd (hinj hxn) (Nat.ne_of_lt hi)
      · intro row' hrow'
        rw [hmy] at hrow'
        rcases List.mem_append.mp hrow' with h | h
        · rcases hprov row' h with ⟨i, hi, hid⟩
          exact ⟨i, Nat.lt_succ_of_lt hi, hid⟩
        · have hr' := List.mem_singleton.mp h
          exact ⟨n, Nat.lt_succ_self n, by rw [hr']⟩
  | some r =>
      have hfind : ∃ row, tbl.find? (fun row => row.album_id == a) = some row ∧
          row.like_count = r.like_count ∧ row.dislike_count = r.dislike_count := by
        have h := hcounts a
        rw [dynCounts, dynGetByAlbumID, ht] at h
        unfold mysqlCounts mysqlGetByAlbumID at h
        rcases Option.map_eq_some'.mp h with ⟨row, hrow, hmap⟩
        have hpair := Prod.mk.injEq .. ▸ hmap
        simp only [Prod.mk.injEq] at hpair
        exact ⟨row, hrow, hpair.1, hpair.2⟩
      obtain ⟨row, hrow, hlikes, hdislikes⟩ := hfind
      have hrowmem : row ∈ tbl := List.mem_of_find?_eq_some hrow
      have hrowalb : row.album_id = a := by
        simpa using List.find?_some hrow
      have hsel : mysqlSelectReviewID tbl a = some row.review_id := by
        simp [mysqlSelectReviewID, hrow]
      have hmy : mysqlAddCount tbl a c (uuid n) =
          tbl.map (fun x => if x.review_id == row.review_id then
            mysqlBump c x else x) := by
        simp [mysqlAddCount, hsel]
      have hdynT : ∀ k, (dynAddCount t a c).2 k =
          if k == a then some (applyAddCount c r) else t k := by
        intro k
        simp [dynAddCount, dynGetByAlbumID, ht, dynApply]
      have hfalb : ∀ x : MySQLRow,
          ((if x.review_id == row.review_id then mysqlBump c x else x)).album_id
            = x.album_id := by
        intro x
        by_cases hx : (x.review_id == row.review_id) = true <;>
          simp [hx, mysqlBump_album_id]
      have hfrid : ∀ x : MySQLRow,
          ((if x.review_id == row.review_id then mysqlBump c x else x)).review_id
            = x.review_id := by
        intro x
        by_cases hx : (x.review_id == row.review_id) = true <;>
          simp [hx, mysqlBump_review_id]
      have hfindmap : ∀ b, (tbl.map (fun x => if x.review_id == row.review_id
            then mysqlBump c x else x)).find? (fun x => x.album_id == b) =
          (tbl.find? (fun x => x.album_id == b)).map
            (fun x => if x.review_id == row.review_id then mysqlBump c x else x) := by
        intro b
        exact find?_map_comm _ _ (fun x => by rw [hfalb x]) tbl
      refine ⟨?_, ?_, ?_⟩
      · intro b
        by_cases hb : b = a
        · subst hb
          have hbump := bump_counts_agree c row r hlikes hdislikes
          have hdb : (dynAddCount t b c).2 b = some (applyAddCount c r) := by
            rw [hdynT b]
            simp
          rw [hmy]
          unfold mysqlCounts mysqlGetByAlbumID dynCounts dynGetByAlbumID
          rw [hfindmap b, hrow, hdb, Option.map_some', Option.map_some']
          simp [hbump.1, hbump.2]
        · have hba : (b == a) = false := beq_eq_false_iff_ne.mpr hb
          rw [hmy]
          unfold mysqlCounts mysqlGetByAlbumID
          rw [hfindmap b]
          cases hq : tbl.find? (fun x => x.album_id == b) with
          | none =>
              have hc := hcounts b
              unfold mysqlCounts mysqlGetByAlbumID at hc
              rw [hq] at hc
              rw [Option.map_none', Option.map_none', dynCounts,
                dynGetByAlbumID, hdynT b, if_neg (by simp [hba])]
              simpa [dynCounts, dynGetByAlbumID] using hc
          | some r' =>
              have hr'mem : r' ∈ tbl := List.mem_of_find?_eq_some hq
              have hr'alb : r'.album_id = b := by
                simpa using List.find?_some hq
              have hrne : row ≠ r' := by
                intro he
                rw [he, hr'alb] at hrowalb
                exact hb hrowalb
              have hridne : (r'.review_id == row.review_id) = false := by
                refine beq_eq_false_iff_ne.mpr ?_
                intro he
                exact hrne (List.inj_on_of_nodup_map hnodup hrowmem
                  hr'mem he.symm)
              have hc := hcounts b
              unfold mysqlCounts mysqlGetByAlbumID at hc
              rw [hq] at hc
              rw [Option.map_some', Option.map_some', if_neg (by simp [hridne]),
                dynCounts, dynGetByAlbumID, hdynT b, if_neg (by simp [hba])]
              simpa [dynCounts, dynGetByAlbumID] using hc
      · have hmaps : (tbl.map (fun x => if x.review_id == row.review_id then
            mysqlBump c x else x)).map (fun x => x.review_id) =
            tbl.map (fun x => x.review_id) := by
          rw [List.map_map]
          exact List.map_congr_left (fun x _ => hfrid x)
        rw [hmy, hmaps]
        exact hnodup
      · intro row' hrow'
        rw [hmy] at hrow'
        rcases List.mem_map.mp hrow' with ⟨x, hx, rfl⟩
        rcases hprov x hx with ⟨i, hi, hid⟩
        exact ⟨i, Nat.lt_succ_of_lt hi, by rw [hfrid x, hid]⟩

/-- Helper: the coupling invariant is preserved along any operation
sequence. -/
lemma equivInv_run (uuid : Nat → String) (hinj : Function.Injective uuid) :
    ∀ (ops : List ReviewOp) (t : DynTable) (tbl : MySQLTable) (n : Nat),
      EquivInv uuid t tbl n →
      EquivInv uuid (dynRunFrom t ops) (mysqlRunFrom uuid tbl n ops)
        (n + ops.length)
  | [], t, tbl, n, h => by simpa [dynRunFrom, mysqlRunFrom] using h
  | op :: rest, t, tbl, n, h => by
      have hstep : EquivInv uuid (dynStep t op) (mysqlStep uuid tbl n op)
          (n + 1) := by
        cases op with
        | addLike a => exact equivInv_addCount uuid hinj t tbl n a "like_count" h
        | addDislike a =>
            exact equivInv_addCount uuid hinj t tbl n a "dislike_count" h
      have hrec := equivInv_run uuid hinj rest (dynStep t op)
        (mysqlStep uuid tbl n op) (n + 1) hstep
      have harith : (n + 1) + rest.length = n + (op :: rest).length := by
        simp [List.length_cons]
        omega
      rw [harith] at hrec
      simpa [dynRunFrom, mysqlRunFrom] using hrec

/-- C2: for every finite sequence of `addLike`/`addDislike` operations applied
sequentially from empty stores, the MySQL backend and the DynamoDB backend
report identical final counters for every album (provided the uuid generator
never collides). -/
theorem backends_equivalent (uuid : Nat → String)
    (hinj : Function.Injective uuid) (ops : List ReviewOp) (a : String) :
    mysqlCounts (mysqlRun uuid ops) a = dynCounts (dynRun ops) a := by
  have h := equivInv_run uuid hinj ops dynEmpty [] 0 (equivInv_empty uuid)
  exact h.1 a

/-- Collision-free uuid oracle used by the C2 witness. -/
def uuidFixture : Nat → String := fun i => String.mk (List.replicate i 'u')

/-- Operation sequence used by the C2 witness. -/
def opsFixture : List ReviewOp :=
  [ReviewOp.addLike "A1", ReviewOp.addLike "A1", ReviewOp.addDislike "A2"]

/-- C2 witness: the equivalence evaluated on a concrete operation sequence,
together with the concrete counters both backends report. -/
theorem backends_equivalent_witness :
    mysqlCounts (mysqlRun uuidFixture opsFixture) "A1" =
      dynCounts (dynRun opsFixture) "A1" ∧
    dynCounts (dynRun opsFixture) "A1" = some (2, 0) := by
  constructor
  · refine backends_equivalent uuidFixture ?_ opsFixture "A1"
    intro i j h
    simpa [uuidFixture] using congrArg (fun s => s.data.length) h
  · decide

end AlbumStore
